import Mathlib

/-!
# Verification of `pi_control/control_interface.py`

Shallow embedding of the K5MarauderBTC control interface: a serial link
manager (`connect_serial`, `send_command`), a status poller
(`update_status`, rescheduling itself with a 5 second timer), and the
Flask HTTP facade (`api_command`, `api_mode`, `api_status`).

Modelling conventions:
* Byte strings on the serial line are modelled as Lean `String`s
  (UTF-8 payload); `.encode()` / `.decode()` are identities of the model,
  with a decode failure folded into the port's read-failure state.
* JSON numbers are modelled as exact rationals `ℚ`.  The program never
  does arithmetic on them — it only stores and serves them — so the
  float/rational distinction is unobservable in the modelled behaviour.
* `time.sleep` calls are recorded in a `slept` trace (in seconds, as `ℚ`)
  rather than consuming real time.
* A Python exception raised by a modelled operation is an explicit
  `Option`/`Except` error value.
-/

/-- JSON values, as produced by parsing a device reply or an HTTP request
body.  Object members are kept in textual order; numbers are exact
rationals (see module conventions above). -/
inductive Json where
  | null : Json
  | bool : Bool → Json
  | num : ℚ → Json
  | str : String → Json
  | arr : List Json → Json
  | obj : List (String × Json) → Json

/-! ## A model of Python `json.loads`

A recursive-descent parser for standard JSON (RFC 8259): this is the
grammar accepted by `json.loads` on the inputs exercised below.  (The
non-standard `NaN`/`Infinity` literals that CPython additionally accepts,
and the pairing of `\u` surrogate escapes, are outside the model; no
claim involves them.)  A result of `none` models `json.loads` raising
`json.JSONDecodeError`. -/

/-- JSON insignificant whitespace: space, tab, line feed, carriage return. -/
def isJsonWs (c : Char) : Bool :=
  c = ' ' || c = '\t' || c = '\n' || c = '\r'

/-- Drop leading JSON whitespace. -/
def skipWs : List Char → List Char
  | [] => []
  | c :: cs => if isJsonWs c then skipWs cs else c :: cs

/-- Numeric value of a list of decimal digits. -/
def natOfDigits (ds : List Char) : ℕ :=
  ds.foldl (fun n c => 10 * n + (c.toNat - 48)) 0

/-- Value of a hexadecimal digit, if any. -/
def hexVal (c : Char) : Option ℕ :=
  if c.isDigit then some (c.toNat - 48)
  else if 'a' ≤ c ∧ c ≤ 'f' then some (c.toNat - 87)
  else if 'A' ≤ c ∧ c ≤ 'F' then some (c.toNat - 55)
  else none

/-- Parse the body of a JSON string (the opening quote already consumed),
returning its characters and the input past the closing quote. -/
def parseStringBody : ℕ → List Char → Option (List Char × List Char)
  | 0, _ => none
  | _, [] => none
  | fuel + 1, c :: cs =>
    if c = '"' then some ([], cs)
    else if c = '\\' then
      match cs with
      | [] => none
      | e :: cs1 =>
        let esc : Option (Char × List Char) :=
          if e = '"' then some ('"', cs1)
          else if e = '\\' then some ('\\', cs1)
          else if e = '/' then some ('/', cs1)
          else if e = 'b' then some (Char.ofNat 8, cs1)
          else if e = 'f' then some (Char.ofNat 12, cs1)
          else if e = 'n' then some ('\n', cs1)
          else if e = 'r' then some ('\r', cs1)
          else if e = 't' then some (Char.ofNat 9, cs1)
          else if e = 'u' then
            match cs1 with
            | h1 :: h2 :: h3 :: h4 :: cs2 =>
              match hexVal h1, hexVal h2, hexVal h3, hexVal h4 with
              | some a, some b, some c2, some d =>
                some (Char.ofNat (((a * 16 + b) * 16 + c2) * 16 + d), cs2)
              | _, _, _, _ => none
            | _ => none
          else none
        match esc with
        | none => none
        | some (ch, rest) =>
          match parseStringBody fuel rest with
          | none => none
          | some (chars, rest2) => some (ch :: chars, rest2)
    else if c.toNat < 32 then none
    else
      match parseStringBody fuel cs with
      | none => none
      | some (chars, rest) => some (c :: chars, rest)

/-- Parse a JSON number (strict grammar `-? int frac? exp?`), returning
its exact rational value. -/
def parseNumber (cs : List Char) : Option (Json × List Char) :=
  let (neg, cs1) : Bool × List Char :=
    match cs with
    | '-' :: r => (true, r)
    | _ => (false, cs)
  let (ids, cs2) := cs1.span Char.isDigit
  if ids.isEmpty then none
  else if ids.head? = some '0' ∧ 1 < ids.length then none
  else
    let fracPart : Option (List Char × List Char) :=
      match cs2 with
      | '.' :: r =>
        let (fds, cs3) := r.span Char.isDigit
        if fds.isEmpty then none else some (fds, cs3)
      | _ => some ([], cs2)
    match fracPart with
    | none => none
    | some (fds, cs3) =>
      let expPart : Option (Bool × List Char × List Char) :=
        match cs3 with
        | c :: r =>
          if c = 'e' ∨ c = 'E' then
            let (eneg, r1) : Bool × List Char :=
              match r with
              | '+' :: r2 => (false, r2)
              | '-' :: r2 => (true, r2)
              | _ => (false, r)
            let (eds, cs4) := r1.span Char.isDigit
            if eds.isEmpty then none else some (eneg, eds, cs4)
          else some (false, [], cs3)
        | [] => some (false, [], cs3)
      match expPart with
      | none => none
      | some (eneg, eds, cs4) =>
        let mant : ℕ := natOfDigits ids * 10 ^ fds.length + natOfDigits fds
        let emag : ℕ := natOfDigits eds
        let num : ℤ := if eneg then (mant : ℤ) else (mant : ℤ) * 10 ^ emag
        let den : ℕ := if eneg then 10 ^ fds.length * 10 ^ emag else 10 ^ fds.length
        some (.num (mkRat (if neg then -num else num) den), cs4)

mutual

/-- Parse one JSON value, returning it and the remaining input. -/
def parseValue : ℕ → List Char → Option (Json × List Char)
  | 0, _ => none
  | fuel + 1, cs =>
    match skipWs cs with
    | [] => none
    | c :: rest =>
      if c = 'n' then
        match rest with
        | 'u' :: 'l' :: 'l' :: r => some (.null, r)
        | _ => none
      else if c = 't' then
        match rest with
        | 'r' :: 'u' :: 'e' :: r => some (.bool true, r)
        | _ => none
      else if c = 'f' then
        match rest with
        | 'a' :: 'l' :: 's' :: 'e' :: r => some (.bool false, r)
        | _ => none
      else if c = '"' then
        match parseStringBody (rest.length + 1) rest with
        | some (chars, r) => some (.str (String.mk chars), r)
        | none => none
      else if c = '{' then
        match skipWs rest with
        | '}' :: r => some (.obj [], r)
        | cs2 =>
          match parseMembers fuel cs2 with
          | some (ms, r) => some (.obj ms, r)
          | none => none
      else if c = '[' then
        match skipWs rest with
        | ']' :: r => some (.arr [], r)
        | cs2 =>
          match parseElements fuel cs2 with
          | some (es, r) => some (.arr es, r)
          | none => none
      else parseNumber (c :: rest)

/-- Parse the non-empty member list of a JSON object, up to and including
the closing brace. -/
def parseMembers : ℕ → List Char → Option (List (String × Json) × List Char)
  | 0, _ => none
  | fuel + 1, cs =>
    match skipWs cs with
    | '"' :: rest =>
      match parseStringBody (rest.length + 1) rest with
      | none => none
      | some (kchars, r1) =>
        match skipWs r1 with
        | ':' :: r2 =>
          match parseValue fuel r2 with
          | none => none
          | some (v, r3) =>
            match skipWs r3 with
            | ',' :: r4 =>
              match parseMembers fuel r4 with
              | none => none
              | some (ms, r5) => some ((String.mk kchars, v) :: ms, r5)
            | '}' :: r4 => some ([(String.mk kchars, v)], r4)
            | _ => none
        | _ => none
    | _ => none

/-- Parse the non-empty element list of a JSON array, up to and including
the closing bracket. -/
def parseElements : ℕ → List Char → Option (List Json × List Char)
  | 0, _ => none
  | fuel + 1, cs =>
    match parseValue fuel cs with
    | none => none
    | some (v, r) =>
      match skipWs r with
      | ',' :: r2 =>
        match parseElements fuel r2 with
        | none => none
        | some (es, r3) => some (v :: es, r3)
      | ']' :: r2 => some ([v], r2)
      | _ => none

end

/-- Model of Python `json.loads`: parse a complete JSON document; `none`
models a raised `json.JSONDecodeError` (including trailing garbage — the
"Extra data" error). -/
def json_loads (s : String) : Option Json :=
  match parseValue (s.length + 2) s.data with
  | none => none
  | some (v, rest) => if skipWs rest = [] then some v else none

/-! ## Python dict semantics

`device_status` and parsed JSON bodies are Python dicts with string keys.
A dict is modelled as an association list in insertion order: assignment
to an existing key replaces its value in place, assignment to a fresh key
appends at the end — exactly Python's dict semantics. -/

/-- A Python dict with string keys and JSON values, in insertion order. -/
abbrev PyDict := List (String × Json)

/-- Python `d[k] = v`: replace the value at `k` in place, or append. -/
def dictSet : PyDict → String → Json → PyDict
  | [], k, v => [(k, v)]
  | (k', v') :: rest, k, v =>
    if k' = k then (k, v) :: rest else (k', v') :: dictSet rest k v

/-- Python `d.get(k)`: the value at `k`, or `none` (Python `None`). -/
def dictGet : PyDict → String → Option Json
  | [], _ => none
  | (k', v') :: rest, k => if k' = k then some v' else dictGet rest k

/-- Python `d.update(other)` with a dict argument: assign each of
`other`'s entries in order. -/
def dictUpdate (d : PyDict) (u : List (String × Json)) : PyDict :=
  u.foldl (fun acc kv => dictSet acc kv.1 kv.2) d

/-- Python `list(d.keys())`, in insertion order. -/
def dictKeys (d : PyDict) : List String := d.map Prod.fst

/-- Python truthiness of a parsed JSON value (`if not x`): `None`,
`False`, zero, and empty strings/lists/dicts are falsy. -/
def pyTruthy : Json → Bool
  | .null => false
  | .bool b => b
  | .num q => decide (q ≠ 0)
  | .str s => decide (s ≠ "")
  | .arr xs => !xs.isEmpty
  | .obj ms => !ms.isEmpty

/-- Python `str()` of a parsed JSON value, as interpolated by the
f-strings `f"mode \x7bmode\x7d"` and `f"\x7bcommand\x7d\n"`.  Every API claim
exercises only string payloads, where `str` is the identity; the
renderings of the other constructors (Python `str(None)`, `str(True)`,
numeric and container `repr`s) are modelled only up to being some fixed
string, which no theorem below inspects. -/
def pyStr : Json → String
  | .null => "None"
  | .bool true => "True"
  | .bool false => "False"
  | .num q => toString q.num ++ "/" ++ toString q.den
  | .str s => s
  | .arr _ => "[...]"
  | .obj _ => "\x7b...\x7d"

/-- The key/value-sequence path of Python `dict.update` with a list
argument: elements are consumed in order and each assignment lands in
the dict before the next element is examined, so a raise partway through
leaves the earlier assignments in place — exactly as in CPython.  Per
element: a two-element list `[k, v]` whose key is a string assigns it; a
two-element string assigns its first character to its second
(`d.update(["ab"])` gives `d["a"] = "b"`); a dict element is iterated as
its keys, so with exactly two keys it assigns the first to the second; a
list or dict in key position raises `TypeError` (unhashable); a scalar
element raises `TypeError` (not convertible to a sequence); any other
length raises `ValueError`.  The result pairs the dict afterwards with
the raised exception's message, if any.  The one CPython behaviour the
String-keyed `PyDict` state cannot represent — a two-element list whose
key is `None`, a boolean or a number, which CPython accepts and inserts
under a non-string key — is mapped to a distinctly tagged error; no
theorem below exercises that corner. -/
def pyUpdateSeq (d : PyDict) : List Json → PyDict × Option String
  | [] => (d, none)
  | .arr [.str k, v] :: rest => pyUpdateSeq (dictSet d k v) rest
  | .arr [.arr _, _] :: _ => (d, some "TypeError: unhashable type: list")
  | .arr [.obj _, _] :: _ => (d, some "TypeError: unhashable type: dict")
  | .arr l :: _ =>
    if l.length = 2 then
      (d, some "non-string key: not representable in the String-keyed state")
    else
      (d, some "ValueError: dictionary update sequence element has wrong length")
  | .str s :: rest =>
    match s.data with
    | [a, b] => pyUpdateSeq (dictSet d (String.mk [a]) (.str (String.mk [b]))) rest
    | _ => (d, some "ValueError: dictionary update sequence element has wrong length")
  | .obj ms :: rest =>
    match dictKeys (dictUpdate [] ms) with
    | [k1, k2] => pyUpdateSeq (dictSet d k1 (.str k2)) rest
    | _ => (d, some "ValueError: dictionary update sequence element has wrong length")
  | _ :: _ =>
    (d, some "TypeError: cannot convert dictionary update sequence element to a sequence")

/-- Python `dict.update(x)` with an arbitrary parsed JSON value `x`
(line 68 of the source: `device_status.update(status)`), returning the
dict afterwards together with the message of the exception raised, if
any: a dict argument merges all its entries and cannot raise; `None`,
booleans and numbers raise `TypeError` (not iterable); the empty string
and the empty list are empty iterables and succeed without touching the
dict; a non-empty string raises `ValueError` (its elements are length-1
strings, not key-value pairs); a non-empty list is consumed as a
key/value sequence by `pyUpdateSeq`.  The caller catches none of these
exceptions. -/
def pyDictUpdateArg (d : PyDict) : Json → PyDict × Option String
  | .obj fields => (dictUpdate d fields, none)
  | .null => (d, some "TypeError: NoneType object is not iterable")
  | .bool _ => (d, some "TypeError: bool object is not iterable")
  | .num _ => (d, some "TypeError: int or float object is not iterable")
  | .str s =>
    if s.data.isEmpty then (d, none)
    else (d, some "ValueError: dictionary update sequence element has length 1; 2 is required")
  | .arr es => pyUpdateSeq d es

/-! ## The serial link manager -/

/-- The state of the serial transport handle (`serial.Serial`).
`written` is everything ever written to the device; `pending` the bytes
currently available to read (`in_waiting`); `writeFails`/`readFails`
model the next `write`/`read` (or `.decode()`) call raising with the
given message. -/
structure SerialPort where
  written : String
  pending : String
  writeFails : Option String
  readFails : Option String

/-- `serial_port.write(data)`: raises `writeFails` if set, else appends
the bytes. -/
def serialWrite (p : SerialPort) (data : String) : Except String SerialPort :=
  match p.writeFails with
  | some e => .error e
  | none => .ok { p with written := p.written ++ data }

/-- `serial_port.read(serial_port.in_waiting).decode()`: raises
`readFails` if set, else consumes and returns exactly the pending
bytes. -/
def serialReadAvailable (p : SerialPort) : Except String (String × SerialPort) :=
  match p.readFails with
  | some e => .error e
  | none => .ok (p.pending, { p with pending := "" })

/-- Result of `send_command`: the `(bool, string)` pair it returns, the
transport state afterwards, and the `time.sleep` calls it made (in
seconds).  The function always returns — the source wraps the transport
I/O in `try/except Exception`, so no exception reaches the caller. -/
structure SendResult where
  ok : Bool
  response : String
  port : SerialPort
  slept : List ℚ

/-- `send_command(command)` (source lines 45–58): fails fast with
`"Not connected to device"` when the connected flag is unset; otherwise
writes `command` plus a newline, sleeps 0.1 s, reads the available bytes,
and converts any transport exception into a `(False, message)` result. -/
def send_command (serial_connected : Bool) (p : SerialPort) (command : String) :
    SendResult :=
  if serial_connected = false then
    { ok := false, response := "Not connected to device", port := p, slept := [] }
  else
    match serialWrite p (command ++ "\n") with
    | .error e => { ok := false, response := e, port := p, slept := [] }
    | .ok p1 =>
      match serialReadAvailable p1 with
      | .error e => { ok := false, response := e, port := p1, slept := [mkRat 1 10] }
      | .ok (resp, p2) =>
        { ok := true, response := resp, port := p2, slept := [mkRat 1 10] }

/-! ## The status poller -/

/-- The initial `device_status` dict (source lines 23–29). -/
def initial_device_status : PyDict :=
  [("mode", .str "unknown"), ("btc_price", .num 0), ("btc_change", .num 0),
   ("wifi_connected", .bool false), ("last_update", .num 0)]

/-- Observable outcome of one run of `update_status`: the dict
afterwards, the transport afterwards, an uncaught exception if one was
raised, whether `threading.Timer(5.0, update_status).start()` was reached
(and with which delay), and the lines printed. -/
structure TickResult where
  device_status : PyDict
  port : SerialPort
  raised : Option String
  scheduledNext : Bool
  nextDelay : Option ℚ
  logs : List String

/-- `update_status()` (source lines 60–73): sends `status`, tries
`json.loads` on the response, merges via `device_status.update`;
only `json.JSONDecodeError` is caught (logging the bad response), so an
exception from `dict.update` propagates out of the function and the
rescheduling line is never reached — with any assignments `update` made
before raising left in the shared dict. -/
def update_status (serial_connected : Bool) (p : SerialPort) (d : PyDict) :
    TickResult :=
  let sc := send_command serial_connected p "status"
  if sc.ok then
    match json_loads sc.response with
    | none =>
      { device_status := d, port := sc.port, raised := none,
        scheduledNext := true, nextDelay := some 5,
        logs := ["Failed to parse status response: " ++ sc.response] }
    | some v =>
      match pyDictUpdateArg d v with
      | (d1, none) =>
        { device_status := d1, port := sc.port, raised := none,
          scheduledNext := true, nextDelay := some 5, logs := [] }
      | (d1, some e) =>
        { device_status := d1, port := sc.port, raised := some e,
          scheduledNext := false, nextDelay := none, logs := [] }
  else
    { device_status := d, port := sc.port, raised := none,
      scheduledNext := true, nextDelay := some 5, logs := [] }

/-- A healthy transport whose pending bytes are `reply`. -/
def freshPort (reply : String) : SerialPort :=
  { written := "", pending := reply, writeFails := none, readFails := none }

/-- One poller tick on a connected, healthy transport whose reply to
`status` is `reply`. -/
def tickAt (reply : String) (d : PyDict) : TickResult :=
  update_status true (freshPort reply) d

/-- A reply survives a tick without raising exactly when it fails to
parse as JSON or parses as a JSON object. -/
def benignReplyB (r : String) : Bool :=
  match json_loads r with
  | none => true
  | some (.obj _) => true
  | some _ => false

/-- The reply stream of a device that answers every `status` poll with
the same text. -/
def constReplies (r : String) : ℕ → String := fun _ => r

/-- The chain of poller ticks: `pollChain replies d n` is the
`device_status` after `n` ticks, or `none` if some earlier tick raised
and never scheduled a successor. -/
def pollChain (replies : ℕ → String) (d : PyDict) : ℕ → Option PyDict
  | 0 => some d
  | n + 1 =>
    match pollChain replies d n with
    | none => none
    | some dn =>
      let t := tickAt (replies n) dn
      if t.scheduledNext then some t.device_status else none

/-! ## The HTTP facade -/

/-- A Flask response: HTTP status code and JSON body. -/
structure HttpResponse where
  statusCode : ℕ
  body : Json

/-- The 400 response a handler returns when its required field is
missing or falsy, with the given error message. -/
def missingFieldResponse (msg : String) : HttpResponse :=
  { statusCode := 400,
    body := .obj [("success", .bool false), ("error", .str msg)] }

/-- The 200 response wrapping a `send_command` result:
`jsonify(\x7b"success": success, "response": response\x7d)`. -/
def commandResponse (r : SendResult) : HttpResponse :=
  { statusCode := 200,
    body := .obj [("success", .bool r.ok), ("response", .str r.response)] }

/-- `POST /api/command` (source lines 85–93).  `body` is the parsed JSON
request body (`request.json`); `request.json.get('command')` is
`dictGet`, and `if not command` is Python truthiness. -/
def api_command (serial_connected : Bool) (p : SerialPort) (body : PyDict) :
    HttpResponse × SerialPort :=
  match dictGet body "command" with
  | none => (missingFieldResponse "No command provided", p)
  | some c =>
    if pyTruthy c = false then (missingFieldResponse "No command provided", p)
    else
      let r := send_command serial_connected p (pyStr c)
      (commandResponse r, r.port)

/-- `POST /api/mode` (source lines 95–103): like `/api/command` but the
field is `mode` and the command sent is `f"mode \x7bmode\x7d"`. -/
def api_mode (serial_connected : Bool) (p : SerialPort) (body : PyDict) :
    HttpResponse × SerialPort :=
  match dictGet body "mode" with
  | none => (missingFieldResponse "No mode provided", p)
  | some m =>
    if pyTruthy m = false then (missingFieldResponse "No mode provided", p)
    else
      let r := send_command serial_connected p ("mode " ++ pyStr m)
      (commandResponse r, r.port)

/-- `GET /api/status` (source lines 80–83): `jsonify(device_status)`. -/
def api_status (d : PyDict) : HttpResponse :=
  { statusCode := 200, body := .obj d }

/-! ## Startup -/

/-- Observable outcome of `connect_serial(port, baudrate)` (source lines
31–43).  `openResult` is the outcome of the `serial.Serial(port,
baudrate, timeout=1)` constructor: a fresh handle, or a raised exception
message.  On success the function sleeps 2 s, sets the connected flag and
returns `True`; on any exception it logs, clears the flag and returns
`False`. -/
structure ConnectResult where
  returned : Bool
  serial_connected : Bool
  handle : Option SerialPort
  slept : List ℚ
  logs : List String

/-- `connect_serial(port, baudrate)`, as a function of the constructor's
outcome. -/
def connect_serial (port : String) (baudrate : ℕ)
    (openResult : Except String SerialPort) : ConnectResult :=
  match openResult with
  | .ok h =>
    { returned := true, serial_connected := true, handle := some h,
      slept := [2],
      logs := ["Connected to " ++ port ++ " at " ++ toString baudrate ++ " baud"] }
  | .error e =>
    { returned := false, serial_connected := false, handle := none,
      slept := [],
      logs := ["Failed to connect to " ++ port ++ ": " ++ e] }

/-- Observable outcome of `main()` up to the point where it either blocks
in `app.run` or returns: whether the connected flag was set, whether the
first poller tick ran (`update_status()` is called before `app.run`),
whether that tick scheduled the 5-second timer chain, whether `app.run`
was reached, and what was printed. -/
structure MainResult where
  serial_connected : Bool
  pollerFirstTickRan : Bool
  pollerScheduled : Bool
  serverStarted : Bool
  printedFailure : Bool
  logs : List String

/-- `main()` (source lines 105–122), as a function of the serial
constructor's outcome.  On a successful connection the opened handle `h`
carries the bytes the device has made available by the time of the first
`status` poll; `update_status()` runs once in the main thread, and
`app.run` is reached only if that call returns instead of raising. -/
def main_flow (port : String) (baudrate : ℕ)
    (openResult : Except String SerialPort) : MainResult :=
  let c := connect_serial port baudrate openResult
  match c.handle, c.returned with
  | some h, true =>
    let t := update_status true h initial_device_status
    { serial_connected := true, pollerFirstTickRan := true,
      pollerScheduled := t.scheduledNext,
      serverStarted := t.raised.isNone,
      printedFailure := false,
      logs := c.logs ++ t.logs }
  | _, _ =>
    { serial_connected := false, pollerFirstTickRan := false,
      pollerScheduled := false, serverStarted := false,
      printedFailure := true,
      logs := c.logs ++
        ["Failed to connect to the device. Please check the connection and try again."] }

/-! ## Dict lemmas -/

theorem dictGet_dictSet_self (d : PyDict) (k : String) (v : Json) :
    dictGet (dictSet d k v) k = some v := by
  induction d with
  | nil => simp [dictSet, dictGet]
  | cons p rest ih =>
    obtain ⟨k', v'⟩ := p
    by_cases h : k' = k
    · simp [dictSet, dictGet, h]
    · simp [dictSet, dictGet, h, ih]

theorem dictGet_dictSet_ne (d : PyDict) (k' k : String) (v : Json) (h : k' ≠ k) :
    dictGet (dictSet d k' v) k = dictGet d k := by
  induction d with
  | nil => simp [dictSet, dictGet, h]
  | cons p rest ih =>
    obtain ⟨a, b⟩ := p
    by_cases ha : a = k'
    · subst ha
      simp [dictSet, dictGet, h]
    · simp only [dictSet, if_neg ha]
      by_cases hk : a = k
      · simp [dictGet, hk]
      · simp [dictGet, hk, ih]

theorem mem_dictKeys_dictSet (d : PyDict) (k' k : String) (v : Json) :
    k ∈ dictKeys (dictSet d k' v) ↔ k = k' ∨ k ∈ dictKeys d := by
  induction d with
  | nil => simp [dictSet, dictKeys]
  | cons p rest ih =>
    obtain ⟨a, b⟩ := p
    by_cases ha : a = k'
    · subst ha
      simp [dictSet, dictKeys]
    · simp only [dictSet, if_neg ha]
      simp only [dictKeys, List.map_cons, List.mem_cons] at ih ⊢
      rw [ih]
      tauto

theorem dictUpdate_cons (d : PyDict) (a : String) (b : Json)
    (u : List (String × Json)) :
    dictUpdate d ((a, b) :: u) = dictUpdate (dictSet d a b) u := rfl

theorem mem_dictKeys_dictUpdate (u : List (String × Json)) (d : PyDict)
    (k : String) :
    k ∈ dictKeys (dictUpdate d u) ↔ k ∈ dictKeys d ∨ k ∈ u.map Prod.fst := by
  induction u generalizing d with
  | nil => simp [dictUpdate]
  | cons p u ih =>
    obtain ⟨a, b⟩ := p
    rw [dictUpdate_cons, ih, mem_dictKeys_dictSet]
    simp only [List.map_cons, List.mem_cons]
    tauto

/-! ## Tick lemmas -/

theorem send_command_freshPort (reply command : String) :
    send_command true (freshPort reply) command =
      { ok := true, response := reply,
        port := { written := command ++ "\n", pending := "",
                  writeFails := none, readFails := none },
        slept := [mkRat 1 10] } := rfl

theorem tickAt_parse_none (reply : String) (d : PyDict)
    (h : json_loads reply = none) :
    tickAt reply d =
      { device_status := d,
        port := { written := "status\n", pending := "",
                  writeFails := none, readFails := none },
        raised := none, scheduledNext := true, nextDelay := some 5,
        logs := ["Failed to parse status response: " ++ reply] } := by
  simp [tickAt, update_status, send_command_freshPort, h]

theorem tickAt_parse_obj (reply : String) (d : PyDict)
    (fields : List (String × Json)) (h : json_loads reply = some (.obj fields)) :
    tickAt reply d =
      { device_status := dictUpdate d fields,
        port := { written := "status\n", pending := "",
                  writeFails := none, readFails := none },
        raised := none, scheduledNext := true, nextDelay := some 5,
        logs := [] } := by
  simp [tickAt, update_status, send_command_freshPort, h, pyDictUpdateArg]

theorem update_status_benign (p : SerialPort) (d : PyDict)
    (hb : benignReplyB p.pending = true) :
    (update_status true p d).raised = none ∧
    (update_status true p d).scheduledNext = true ∧
    (update_status true p d).nextDelay = some 5 := by
  unfold benignReplyB at hb
  rcases hw : p.writeFails with _ | e
  · rcases hr : p.readFails with _ | e
    · have hsend : send_command true p "status" =
          { ok := true, response := p.pending,
            port := { p with written := p.written ++ ("status" ++ "\n"), pending := "" },
            slept := [mkRat 1 10] } := by
        simp [send_command, serialWrite, serialReadAvailable, hw, hr]
      rcases hj : json_loads p.pending with _ | v
      · simp [update_status, hsend, hj]
      · rw [hj] at hb
        rcases v with _ | b | q | s | xs | ms
        all_goals simp at hb
        simp [update_status, hsend, hj, pyDictUpdateArg]
    · have hsend : send_command true p "status" =
          { ok := false, response := e,
            port := { p with written := p.written ++ ("status" ++ "\n") },
            slept := [mkRat 1 10] } := by
        simp [send_command, serialWrite, serialReadAvailable, hw, hr]
      simp [update_status, hsend]
  · have hsend : send_command true p "status" =
        { ok := false, response := e, port := p, slept := [] } := by
      simp [send_command, serialWrite, hw]
    simp [update_status, hsend]

theorem tickAt_benign (reply : String) (d : PyDict)
    (hb : benignReplyB reply = true) :
    (tickAt reply d).scheduledNext = true ∧
    (tickAt reply d).nextDelay = some 5 :=
  ⟨(update_status_benign (freshPort reply) d hb).2.1,
   (update_status_benign (freshPort reply) d hb).2.2⟩

theorem pollChain_const_benign (reply : String) (d : PyDict)
    (hb : benignReplyB reply = true) :
    ∀ n, (pollChain (constReplies reply) d n).isSome = true := by
  intro n
  induction n with
  | zero => rfl
  | succ n ih =>
    rcases hc : pollChain (constReplies reply) d n with _ | dn
    · rw [hc] at ih
      simp at ih
    · simp [pollChain, hc, constReplies, (tickAt_benign reply dn hb).1]

/-! ## Claims -/

/-- C1: for every command string and every transport state, calling
`send_command` while the connection flag is not set returns the pair
`(False, "Not connected to device")` and leaves the transport untouched
(no write, no read, not even the 0.1 s delay). -/
theorem C1_disconnected_send_is_pure_failure :
    ∀ (p : SerialPort) (command : String),
      send_command false p command =
        { ok := false, response := "Not connected to device", port := p,
          slept := [] } := by
  intro p command
  rfl

/-- C2 counterexample: the claim that a poll keeps the key set of
`device_status` exactly `[mode, btc_price, btc_change, wifi_connected,
last_update]` is false: a reply `\x7b"extra":1\x7d` (a JSON object with an
unrecognized field) grows the dict to six keys, because
`device_status.update(status)` merges every key of the parsed object. -/
theorem C2_counterexample_extra_key_merged :
    dictKeys (tickAt "\x7b\"extra\":1\x7d" initial_device_status).device_status ≠
      ["mode", "btc_price", "btc_change", "wifi_connected", "last_update"] ∧
    dictKeys (tickAt "\x7b\"extra\":1\x7d" initial_device_status).device_status =
      ["mode", "btc_price", "btc_change", "wifi_connected", "last_update",
        "extra"] := by
  constructor
  · intro h
    exact absurd h (by decide)
  · rfl

/-- C2 (amended): for every device reply that parses as a JSON object,
the status poller merges all of the object's fields — recognized or
not — into the shared record: after the poll the key set of
`device_status` is exactly the union of its previous keys and the
reply's keys (so it can grow beyond the five DeviceStatus fields). -/
theorem C2_amended_update_merges_every_key :
    ∀ (d : PyDict) (reply : String) (fields : List (String × Json)),
      json_loads reply = some (.obj fields) →
      ∀ k : String,
        (k ∈ dictKeys (tickAt reply d).device_status ↔
          k ∈ dictKeys d ∨ k ∈ fields.map Prod.fst) := by
  intro d reply fields h k
  rw [tickAt_parse_obj reply d fields h]
  exact mem_dictKeys_dictUpdate fields d k

/-- C2 witness: instantiating the amended claim at the reply
`\x7b"extra":1\x7d` over the initial status. -/
theorem C2_amended_update_merges_every_key_witness :
    json_loads "\x7b\"extra\":1\x7d" = some (.obj [("extra", .num 1)]) ∧
    ("extra" ∈
        dictKeys (tickAt "\x7b\"extra\":1\x7d" initial_device_status).device_status ↔
      "extra" ∈ dictKeys initial_device_status ∨
        "extra" ∈ ([(("extra" : String), Json.num 1)].map Prod.fst)) :=
  ⟨by rfl,
   C2_amended_update_merges_every_key initial_device_status "\x7b\"extra\":1\x7d"
     [("extra", .num 1)] (by rfl) "extra"⟩

/-- C3: if the device reply to a status poll is the JSON object
`\x7b"mode":"sniff","btc_price":65000.1\x7d` then, whatever the previous
status dict was, after the poll `mode = "sniff"` and
`btc_price = 65000.1`, while `wifi_connected`, `btc_change` and
`last_update` keep their previous values. -/
theorem C3_sniff_reply_updates_two_fields_only :
    ∀ d : PyDict,
      dictGet (tickAt "\x7b\"mode\":\"sniff\",\"btc_price\":65000.1\x7d" d).device_status
          "mode" = some (.str "sniff") ∧
      dictGet (tickAt "\x7b\"mode\":\"sniff\",\"btc_price\":65000.1\x7d" d).device_status
          "btc_price" = some (.num ((650001 : ℚ) / 10)) ∧
      dictGet (tickAt "\x7b\"mode\":\"sniff\",\"btc_price\":65000.1\x7d" d).device_status
          "wifi_connected" = dictGet d "wifi_connected" ∧
      dictGet (tickAt "\x7b\"mode\":\"sniff\",\"btc_price\":65000.1\x7d" d).device_status
          "btc_change" = dictGet d "btc_change" ∧
      dictGet (tickAt "\x7b\"mode\":\"sniff\",\"btc_price\":65000.1\x7d" d).device_status
          "last_update" = dictGet d "last_update" := by
  intro d
  have hq : mkRat 650001 10 = (650001 : ℚ) / 10 := by
    rw [Rat.mkRat_eq_divInt, Rat.divInt_eq_div]
    norm_num
  have hp : json_loads "\x7b\"mode\":\"sniff\",\"btc_price\":65000.1\x7d" =
      some (.obj [("mode", .str "sniff"), ("btc_price", .num (mkRat 650001 10))]) :=
    by rfl
  rw [← hq, tickAt_parse_obj _ d _ hp]
  have hsets :
      dictUpdate d [("mode", Json.str "sniff"),
        ("btc_price", Json.num (mkRat 650001 10))] =
      dictSet (dictSet d "mode" (.str "sniff")) "btc_price"
        (.num (mkRat 650001 10)) := rfl
  simp only [hsets]
  refine ⟨?_, ?_, ?_, ?_, ?_⟩
  · rw [dictGet_dictSet_ne _ _ _ _ (by decide), dictGet_dictSet_self]
  · rw [dictGet_dictSet_self]
  · rw [dictGet_dictSet_ne _ _ _ _ (by decide),
      dictGet_dictSet_ne _ _ _ _ (by decide)]
  · rw [dictGet_dictSet_ne _ _ _ _ (by decide),
      dictGet_dictSet_ne _ _ _ _ (by decide)]
  · rw [dictGet_dictSet_ne _ _ _ _ (by decide),
      dictGet_dictSet_ne _ _ _ _ (by decide)]

/-- C4: for every device reply that does not parse as JSON, the poller
tick logs the parse failure and leaves every field of `device_status`
unchanged (and raises nothing). -/
theorem C4_unparseable_reply_keeps_status :
    ∀ (d : PyDict) (reply : String),
      json_loads reply = none →
      (tickAt reply d).device_status = d ∧
      (tickAt reply d).logs = ["Failed to parse status response: " ++ reply] ∧
      (tickAt reply d).raised = none := by
  intro d reply h
  rw [tickAt_parse_none reply d h]
  exact ⟨rfl, rfl, rfl⟩

/-- C4 witness: the non-JSON reply `"OK"` from the initial status. -/
theorem C4_unparseable_reply_keeps_status_witness :
    json_loads "OK" = none ∧
    (tickAt "OK" initial_device_status).device_status = initial_device_status ∧
    (tickAt "OK" initial_device_status).logs =
      ["Failed to parse status response: " ++ "OK"] :=
  ⟨by rfl,
   (C4_unparseable_reply_keeps_status initial_device_status "OK" (by rfl)).1,
   (C4_unparseable_reply_keeps_status initial_device_status "OK" (by rfl)).2.1⟩

/-- C5 counterexample: the claim that every possible device reply lets
the tick schedule its successor is false: the reply `"5"` parses as the
JSON number 5, `device_status.update(5)` raises an uncaught `TypeError`,
the `threading.Timer(5.0, ...)` line is never reached, and the polling
chain is dead from that tick on. -/
theorem C5_counterexample_numeric_reply_kills_poller :
    (tickAt "5" initial_device_status).scheduledNext = false ∧
    (tickAt "5" initial_device_status).nextDelay = none ∧
    (tickAt "5" initial_device_status).raised.isSome = true ∧
    pollChain (constReplies "5") initial_device_status 1 = none := by
  exact ⟨rfl, rfl, rfl, rfl⟩

/-- C5 (amended): every tick whose reply either fails to parse as JSON
or parses as a JSON object schedules the next tick 5.0 seconds after its
own completion, and no cancellation mechanism exists — so a device whose
replies all stay of that form is polled forever.  (The original
universal claim fails outside that form: some replies, such as `"5"`,
make `dict.update` raise out of the tick and the chain terminates, as
the counterexample shows.) -/
theorem C5_amended_benign_ticks_reschedule_forever :
    ∀ (reply : String) (d : PyDict),
      benignReplyB reply = true →
      (tickAt reply d).scheduledNext = true ∧
      (tickAt reply d).nextDelay = some 5 ∧
      ∀ n, (pollChain (constReplies reply) d n).isSome = true := by
  intro reply d hb
  exact ⟨(tickAt_benign reply d hb).1, (tickAt_benign reply d hb).2,
    pollChain_const_benign reply d hb⟩

/-- C5 witness: the reply `\x7b\x7d` (an empty JSON object) keeps the chain
alive; after three ticks the poller is still scheduled. -/
theorem C5_amended_benign_ticks_reschedule_forever_witness :
    benignReplyB "\x7b\x7d" = true ∧
    (tickAt "\x7b\x7d" initial_device_status).scheduledNext = true ∧
    (pollChain (constReplies "\x7b\x7d") initial_device_status 3).isSome = true :=
  ⟨by rfl,
   (C5_amended_benign_ticks_reschedule_forever "\x7b\x7d" initial_device_status
     (by rfl)).1,
   (C5_amended_benign_ticks_reschedule_forever "\x7b\x7d" initial_device_status
     (by rfl)).2.2 3⟩

/-- C6: a POST to `/api/mode` with body `\x7b"mode": "scan"\x7d` while
connected and with a functioning write channel results in exactly the
bytes of `mode scan\n` being appended to the transport. -/
theorem C6_mode_scan_writes_mode_scan_newline :
    ∀ p : SerialPort,
      p.writeFails = none →
      (api_mode true p [("mode", Json.str "scan")]).2.written =
        p.written ++ "mode scan\n" := by
  intro p h
  obtain ⟨w, pend, wf, rf⟩ := p
  simp only at h
  subst h
  rcases rf with _ | e
  · rfl
  · rfl

/-- C6 witness: the write on a fresh healthy transport. -/
theorem C6_mode_scan_writes_mode_scan_newline_witness :
    (freshPort "pong").writeFails = none ∧
    (api_mode true (freshPort "pong") [("mode", Json.str "scan")]).2.written =
      (freshPort "pong").written ++ "mode scan\n" :=
  ⟨rfl, C6_mode_scan_writes_mode_scan_newline (freshPort "pong") rfl⟩

/-- C7: a POST to `/api/command` whose JSON body is the empty object
(no `command` key) returns HTTP 400 with body
`\x7b"success": false, "error": "No command provided"\x7d` and leaves the
transport untouched, whatever the connection state. -/
theorem C7_command_missing_field_is_400 :
    ∀ (serial_connected : Bool) (p : SerialPort),
      api_command serial_connected p [] =
        ({ statusCode := 400,
           body := .obj [("success", .bool false),
             ("error", .str "No command provided")] }, p) := by
  intro c p
  rfl

/-- C8: while connected, `send_command` never raises: it is a total
function of the transport state that either (a) appends `command`
followed by a newline to the written bytes, sleeps 0.1 s, consumes and
returns exactly the pending bytes with success `True`, or (b) on a
transport error returns `False` paired with that error's message. -/
theorem C8_connected_send_succeeds_or_reports_error :
    ∀ (p : SerialPort) (command : String),
      ((send_command true p command).ok = true ∧
        (send_command true p command).response = p.pending ∧
        (send_command true p command).port.written =
          p.written ++ (command ++ "\n") ∧
        (send_command true p command).port.pending = "" ∧
        (send_command true p command).slept = [mkRat 1 10]) ∨
      ((send_command true p command).ok = false ∧
        (p.writeFails = some (send_command true p command).response ∨
          p.readFails = some (send_command true p command).response)) := by
  intro p command
  rcases hw : p.writeFails with _ | e
  · rcases hr : p.readFails with _ | e
    · left
      simp [send_command, serialWrite, serialReadAvailable, hw, hr]
    · right
      simp [send_command, serialWrite, serialReadAvailable, hw, hr]
  · right
    simp [send_command, serialWrite, hw]

/-- C9 counterexample: the claim that a successful connection always
leads to the web server starting is false: if the device's first reply
to the initial `status` poll parses as a non-object JSON value (here
`"5"`), the first `update_status()` call — made in the main thread
before `app.run` — raises an uncaught `TypeError` and the server is
never started. -/
theorem C9_counterexample_first_tick_crash_blocks_server :
    (connect_serial "/dev/ttyUSB0" 115200 (.ok (freshPort "5"))).returned =
      true ∧
    (main_flow "/dev/ttyUSB0" 115200 (.ok (freshPort "5"))).serial_connected =
      true ∧
    (main_flow "/dev/ttyUSB0" 115200 (.ok (freshPort "5"))).serverStarted =
      false := by
  exact ⟨rfl, rfl, rfl⟩

/-- C9 (amended): if the initial serial connection fails, the program
prints the failure message and exits without running the poller or the
web server.  If it succeeds, the poller's first tick runs; and provided
that tick does not raise — that is, the first status reply fails to
parse or parses as a JSON object — the 5-second polling chain is
scheduled and the web server is started. -/
theorem C9_amended_startup_paths :
    ∀ (port : String) (baud : ℕ) (e : String) (hnd : SerialPort),
      (main_flow port baud (.error e)).printedFailure = true ∧
      (main_flow port baud (.error e)).pollerFirstTickRan = false ∧
      (main_flow port baud (.error e)).serverStarted = false ∧
      (main_flow port baud (.ok hnd)).serial_connected = true ∧
      (main_flow port baud (.ok hnd)).pollerFirstTickRan = true ∧
      (main_flow port baud (.ok hnd)).printedFailure = false ∧
      (benignReplyB hnd.pending = true →
        (main_flow port baud (.ok hnd)).serverStarted = true ∧
        (main_flow port baud (.ok hnd)).pollerScheduled = true) := by
  intro port baud e hnd
  refine ⟨rfl, rfl, rfl, rfl, rfl, rfl, fun hb => ?_⟩
  have hu := update_status_benign hnd initial_device_status hb
  constructor
  · show (update_status true hnd initial_device_status).raised.isNone = true
    rw [hu.1]
    rfl
  · exact hu.2.1

/-- C9 witness: a failing and a succeeding startup, the latter with a
first reply of `\x7b\x7d`. -/
theorem C9_amended_startup_paths_witness :
    (main_flow "/dev/ttyUSB0" 115200 (.error "boom")).printedFailure = true ∧
    benignReplyB (freshPort "\x7b\x7d").pending = true ∧
    (main_flow "/dev/ttyUSB0" 115200 (.ok (freshPort "\x7b\x7d"))).serverStarted =
      true :=
  ⟨(C9_amended_startup_paths "/dev/ttyUSB0" 115200 "boom"
      (freshPort "\x7b\x7d")).1,
   by rfl,
   ((C9_amended_startup_paths "/dev/ttyUSB0" 115200 "boom"
      (freshPort "\x7b\x7d")).2.2.2.2.2.2 (by rfl)).1⟩

/-- C10: a POST to `/api/command` or `/api/mode` whose required field is
present but falsy in Python's sense (for example the empty string) is
answered exactly like a missing field: HTTP 400 with the
`No command provided` / `No mode provided` error body, and nothing is
written to the transport. -/
theorem C10_falsy_field_treated_as_missing :
    ∀ (serial_connected : Bool) (p : SerialPort) (v : Json),
      pyTruthy v = false →
      api_command serial_connected p [("command", v)] =
        ({ statusCode := 400,
           body := .obj [("success", .bool false),
             ("error", .str "No command provided")] }, p) ∧
      api_mode serial_connected p [("mode", v)] =
        ({ statusCode := 400,
           body := .obj [("success", .bool false),
             ("error", .str "No mode provided")] }, p) := by
  intro c p v h
  constructor
  · simp [api_command, dictGet, h, missingFieldResponse]
  · simp [api_mode, dictGet, h, missingFieldResponse]

/-- C10 witness: the empty string as command and mode. -/
theorem C10_falsy_field_treated_as_missing_witness :
    pyTruthy (Json.str "") = false ∧
    api_command true (freshPort "") [("command", Json.str "")] =
      ({ statusCode := 400,
         body := .obj [("success", .bool false),
           ("error", .str "No command provided")] }, freshPort "") :=
  ⟨by rfl,
   (C10_falsy_field_treated_as_missing true (freshPort "") (Json.str "")
     (by rfl)).1⟩
